import Mathlib

/-!
Shallow embedding of `src/duct-tape/xnu/osfmk/i386/rtclock.c` (the monotonic
hardware-clock subsystem) together with proofs of the specification claims.

Machine integers (`uint64_t`, `uint32_t`) are embedded as `Nat` with explicit
`% 2 ^ 64` / `% 2 ^ 32` at the points where the C code can wrap or truncate.
External collaborators (the pal cycle converter `_rtc_tsc_to_nanoseconds`, the
hardware timer driver `rtc_timer->rtc_set`, the raw counter read `rdtsc64`)
are passed in as explicit function or value parameters.  Calls to external
side-effecting collaborators (`commpage_set_nanotime`, `rtc_timer->rtc_config`,
`timer_resync_deadlines`, `rtc_timer->rtc_set`, `timer_intr`) are recorded in
an event trace carried in the state.
-/

namespace Rtclock

/-- Nanoseconds per second (`NSEC_PER_SEC` from the mach headers). -/
def NSEC_PER_SEC : Nat := 1000000000

/-- Modelled from the spec: `SLOW_TSC_THRESHOLD` lives in `i386/tsc.h`, which is
not under `src/`.  The spec pins it down as the fixed low-frequency threshold of
the Calibrator's shift-search whose purpose (Invariant I1) is to guarantee that
`(NSEC_PER_SEC << 32) / effective_rate` fits in 32 bits (forcing the threshold
to be at least `10^9`), and whose scenario "frequency = 2,000,000,000 yields
shift = 0" forces it to be below `2 * 10^9`.  The repository's platform header
uses the constant 1000067800 cycles/sec, which satisfies both. -/
def SLOW_TSC_THRESHOLD : Nat := 1000067800

/-- Modelled from the spec: `EndOfAllTime`, the sentinel deadline value meaning
"none armed" (`kern` headers, not under `src/`); the all-ones `uint64_t`. -/
def EndOfAllTime : Nat := 2 ^ 64 - 1

/-- Two's-complement subtraction on the `uint64_t` embedding: `a - b` mod `2^64`. -/
def u64_sub (a b : Nat) : Nat := (a + 2 ^ 64 - b) % 2 ^ 64

/-- The calibration tuple `pal_rtc_nanotime_t`: `{tsc_base, ns_base, scale, shift}`. -/
structure pal_rtc_nanotime_t where
  tsc_base : Nat
  ns_base : Nat
  scale : Nat
  shift : Nat
deriving DecidableEq

/-- Calls made to external collaborators, recorded in order. -/
inductive KEvent where
  | set_commpage (tsc_base ns_base scale shift : Nat)
  | rtc_config
  | timer_resync_deadlines
  | rtc_set (deadline now : Nat)
  | timer_intr (user_mode : Bool) (rip : Nat)
deriving DecidableEq

/-- The mutable state of the subsystem: the calibration tuple
`pal_rtc_nanotime_info`, the four sleep/wake audit-trail globals, the
per-processor deadline bookkeeping (`x86_lcpu()->rtcDeadline/rtcPop`),
`tsc_rebase_abs_time`, and the trace of external calls. -/
structure KState where
  rtc_nanotime : pal_rtc_nanotime_t
  gAcpiLastSleepTscBase : Nat
  gAcpiLastSleepNanoBase : Nat
  gAcpiLastWakeTscBase : Nat
  gAcpiLastWakeNanoBase : Nat
  rtcDeadline : Nat
  rtcPop : Nat
  tsc_rebase_abs_time : Nat
  events : List KEvent
deriving DecidableEq

/-- Assertion failures and fatal configuration errors. -/
inductive KError where
  | invalid_frequency
  | adjustment_too_large
  | assert_interrupts_enabled
  | assert_preemption_level
deriving DecidableEq

/-- `rtc_nanotime_set_commpage`: republishes the current tuple to the commpage
(the external shared-read surface), recorded as an event. -/
def rtc_nanotime_set_commpage (s : KState) : KState :=
  { s with events := s.events ++
      [KEvent.set_commpage s.rtc_nanotime.tsc_base s.rtc_nanotime.ns_base
        s.rtc_nanotime.scale s.rtc_nanotime.shift] }

/-- Modelled from the spec: the pal primitive `_pal_rtc_nanotime_store` (in
`i386/pal_native.h`, not under `src/`) stores the four fields into the tuple;
spec 4.2 `init` and the source comment describe exactly this field store. -/
def _pal_rtc_nanotime_store (tsc base scale shift : Nat) : pal_rtc_nanotime_t :=
  ⟨tsc, base, scale, shift⟩

/-- `_rtc_nanotime_init(rntp, base)`: store `(rdtsc64(), base)` as the new base
pair, keeping the current scale/shift.  The `rdtsc64()` read is the `tsc`
parameter. -/
def _rtc_nanotime_init (tsc base : Nat) (s : KState) : KState :=
  { s with rtc_nanotime :=
      _pal_rtc_nanotime_store tsc base s.rtc_nanotime.scale s.rtc_nanotime.shift }

/-- `rtc_nanotime_init(base)`: snapshot the pre-reset bases into the
sleep-audit globals, reinitialize the tuple, snapshot the post-reset bases into
the wake-audit globals, and republish. -/
def rtc_nanotime_init (tsc base : Nat) (s : KState) : KState :=
  let s1 := { s with gAcpiLastSleepTscBase := s.rtc_nanotime.tsc_base,
                     gAcpiLastSleepNanoBase := s.rtc_nanotime.ns_base }
  let s2 := _rtc_nanotime_init tsc base s1
  let s3 := { s2 with gAcpiLastWakeTscBase := s2.rtc_nanotime.tsc_base,
                      gAcpiLastWakeNanoBase := s2.rtc_nanotime.ns_base }
  rtc_nanotime_set_commpage s3

/-- `rtc_nanotime_init_commpage`: re-fill the commpage with the current tuple. -/
def rtc_nanotime_init_commpage (s : KState) : KState :=
  rtc_nanotime_set_commpage s

/-- `oldnsecs` of `rtc_clock_napped`: "now" derived from the existing tuple;
`conv` is the external pal converter `_rtc_tsc_to_nanoseconds`. -/
def rtc_napped_oldnsecs (conv : Nat → pal_rtc_nanotime_t → Nat) (tsc : Nat)
    (rntp : pal_rtc_nanotime_t) : Nat :=
  (rntp.ns_base + conv (u64_sub tsc rntp.tsc_base) rntp) % 2 ^ 64

/-- `newnsecs` of `rtc_clock_napped`: "now" derived from the candidate
`(base, tsc_base)` pair, converted with the existing tuple's scale/shift. -/
def rtc_napped_newnsecs (conv : Nat → pal_rtc_nanotime_t → Nat)
    (tsc base tsc_base : Nat) (rntp : pal_rtc_nanotime_t) : Nat :=
  (base + conv (u64_sub tsc tsc_base) rntp) % 2 ^ 64

/-- `rtc_clock_napped(base, tsc_base)`: idle-exit recovery.  Asserts interrupts
disabled, then adopts the candidate pair and republishes only when the
candidate-derived "now" is strictly later than the existing one. -/
def rtc_clock_napped (conv : Nat → pal_rtc_nanotime_t → Nat)
    (ints_enabled : Bool) (tsc base tsc_base : Nat) (s : KState) :
    Except KError KState :=
  if ints_enabled then .error KError.assert_interrupts_enabled
  else if rtc_napped_oldnsecs conv tsc s.rtc_nanotime <
      rtc_napped_newnsecs conv tsc base tsc_base s.rtc_nanotime then
    .ok (rtc_nanotime_set_commpage
      { s with rtc_nanotime := (_pal_rtc_nanotime_store tsc_base base
          s.rtc_nanotime.scale s.rtc_nanotime.shift) })
  else .ok s

/-- Modelled from the spec: the pal primitive `_rtc_nanotime_adjust` (in
`i386/pal_native.h`, not under `src/`); the source comment says "a small delta
is added to the tsc_base", nudging time backwards (spec 4.3.2). -/
def _rtc_nanotime_adjust (delta : Nat) (t : pal_rtc_nanotime_t) :
    pal_rtc_nanotime_t :=
  { t with tsc_base := (t.tsc_base + delta) % 2 ^ 64 }

/-- `rtc_clock_adjust(tsc_base_delta)`: asserts interrupts disabled and
`tsc_base_delta < 100`, then adjusts the tuple and republishes. -/
def rtc_clock_adjust (ints_enabled : Bool) (tsc_base_delta : Nat)
    (s : KState) : Except KError KState :=
  if ints_enabled then .error KError.assert_interrupts_enabled
  else if tsc_base_delta < 100 then
    .ok (rtc_nanotime_set_commpage
      { s with rtc_nanotime := _rtc_nanotime_adjust tsc_base_delta s.rtc_nanotime })
  else .error KError.adjustment_too_large

/-- `rtc_sleep_wakeup(base)`: re-applies the lapic timers' fixed configuration
(`rtc_timer->rtc_config()`) and then resets nanotime via `rtc_nanotime_init`. -/
def rtc_sleep_wakeup (tsc base : Nat) (s : KState) : KState :=
  rtc_nanotime_init tsc base
    { s with events := s.events ++ [KEvent.rtc_config] }

/-- `rtc_decrementer_configure`: re-applies the driver's fixed configuration. -/
def rtc_decrementer_configure (s : KState) : KState :=
  { s with events := s.events ++ [KEvent.rtc_config] }

/-- `rtc_timer_start`: sets the recorded per-processor deadline to
`EndOfAllTime` and resynchronizes deadlines (the deadline write is inside an
`ifndef __DARLING__` region in the source; it is included here as written). -/
def rtc_timer_start (s : KState) : KState :=
  { s with rtcDeadline := EndOfAllTime,
           events := s.events ++ [KEvent.timer_resync_deadlines] }

/-- The `while (cycles <= SLOW_TSC_THRESHOLD) { shift++; cycles <<= 1; }` loop
of `rtc_set_timescale`, with explicit fuel.  The C loop does not terminate when
`cycles = 0`; that is represented by `none` (no fuel ever suffices). -/
def rtc_shift_loop : Nat → Nat → Nat → Option (Nat × Nat)
  | 0, shift, cycles =>
      if cycles ≤ SLOW_TSC_THRESHOLD then none else some (shift, cycles)
  | fuel + 1, shift, cycles =>
      if cycles ≤ SLOW_TSC_THRESHOLD then
        rtc_shift_loop fuel (shift + 1) (cycles * 2 % 2 ^ 64)
      else some (shift, cycles)

/-- The `(scale, shift)` pair produced by `rtc_set_timescale` for a given
measured frequency: run the shift-search, then
`scale = (uint32_t)(((uint64_t)NSEC_PER_SEC << 32) / cycles)` (the
`uint32_t` cast is the `% 2 ^ 32`; the shifted constant fits in 64 bits). -/
def rtc_timescale_pair (cycles : Nat) : Option (Nat × Nat) :=
  match rtc_shift_loop 64 0 cycles with
  | none => none
  | some (shift, c) => some (((NSEC_PER_SEC * 2 ^ 32) / c) % 2 ^ 32, shift)

/-- `rtc_set_timescale(cycles)`: store the computed scale/shift into the tuple,
set `tsc_rebase_abs_time` on first call (`tsc1` is the `rdtsc64()` read of that
branch, `conv` the pal converter), then `rtc_nanotime_init(0)` (`tsc2` is the
`rdtsc64()` read inside `_rtc_nanotime_init`).  `none` when the shift-search
does not terminate (`cycles = 0`). -/
def rtc_set_timescale (conv : Nat → pal_rtc_nanotime_t → Nat)
    (tsc1 tsc_at_boot tsc2 cycles : Nat) (s : KState) : Option KState :=
  match rtc_timescale_pair cycles with
  | none => none
  | some (scale, shift) =>
    let s1 := { s with rtc_nanotime := { s.rtc_nanotime with scale := scale, shift := shift } }
    let s2 := if s1.tsc_rebase_abs_time = 0
      then { s1 with tsc_rebase_abs_time := (conv (u64_sub tsc1 tsc_at_boot)
              s1.rtc_nanotime % 2 ^ 64) }
      else s1
    some (rtc_nanotime_init tsc2 0 s2)

/-- `rtclock_early_init`: `assert(tscFreq)` — a zero measured frequency is a
fatal boot-time configuration error — then `rtc_set_timescale(tscFreq)`. -/
def rtclock_early_init (conv : Nat → pal_rtc_nanotime_t → Nat)
    (tsc1 tsc_at_boot tsc2 tscFreq : Nat) (s : KState) :
    Except KError (Option KState) :=
  if tscFreq = 0 then .error KError.invalid_frequency
  else .ok (rtc_set_timescale conv tsc1 tsc_at_boot tsc2 tscFreq s)

/-- `setPop(time)`: 0 and `EndOfAllTime` clear the timer; otherwise read "now"
(`read_now` is the value `rtc_nanotime_read()` returns), arm the driver
(`rtc_set`, an external `uint64_t`-valued function, hence the `% 2 ^ 64`),
record requested and achieved deadlines, and return `pop - now`.  (The whole
function is inside an `ifndef __DARLING__` region; embedded as written.) -/
def setPop (rtc_set : Nat → Nat → Nat) (read_now time : Nat) (s : KState) :
    Nat × KState :=
  if time = 0 ∨ time = EndOfAllTime then
    let pop := rtc_set 0 0 % 2 ^ 64
    (u64_sub pop 0,
     { s with rtcDeadline := EndOfAllTime, rtcPop := pop,
              events := s.events ++ [KEvent.rtc_set 0 0] })
  else
    let pop := rtc_set time read_now % 2 ^ 64
    (u64_sub pop read_now,
     { s with rtcDeadline := time, rtcPop := pop,
              events := s.events ++ [KEvent.rtc_set time read_now] })

/-- The trapped machine state handed to `rtclock_intr`. -/
inductive x86_saved_state_t where
  | state64 (cs rip : Nat)
  | state32 (cs eip : Nat)
deriving DecidableEq

/-- `rtclock_intr(tregs)`: assert elevated preemption level and interrupts
disabled, decode user/kernel mode (`cs & 0x03`) and the instruction pointer,
and forward to the generic `timer_intr`. -/
def rtclock_intr (preemption_level : Nat) (ints_enabled : Bool)
    (tregs : x86_saved_state_t) (s : KState) : Except KError KState :=
  if ¬ preemption_level > 0 then .error KError.assert_preemption_level
  else if ints_enabled then .error KError.assert_interrupts_enabled
  else match tregs with
    | .state64 cs rip =>
        .ok { s with events := s.events ++ [KEvent.timer_intr (cs &&& 3 ≠ 0) rip] }
    | .state32 cs eip =>
        .ok { s with events := s.events ++ [KEvent.timer_intr (cs &&& 3 ≠ 0) eip] }

/-- `absolutetime_to_nanoseconds`: `*result = abstime`. -/
def absolutetime_to_nanoseconds (abstime : Nat) : Nat := abstime

/-- `nanoseconds_to_absolutetime`: `*result = nanoseconds`. -/
def nanoseconds_to_absolutetime (nanoseconds : Nat) : Nat := nanoseconds

/-- `clock_timebase_info`: `info->numer = info->denom = 1`. -/
def clock_timebase_info : Nat × Nat := (1, 1)

/-- The four sleep/wake audit-trail snapshots of a state, as one tuple. -/
def snaps (s : KState) : Nat × Nat × Nat × Nat :=
  (s.gAcpiLastSleepTscBase, s.gAcpiLastSleepNanoBase,
   s.gAcpiLastWakeTscBase, s.gAcpiLastWakeNanoBase)

/-- A concrete calibration tuple used by the witnesses. -/
def exampleTuple : pal_rtc_nanotime_t := ⟨1000, 5000, 7, 2⟩

/-- A concrete state used by the witnesses and counterexamples. -/
def exampleState : KState :=
  { rtc_nanotime := exampleTuple,
    gAcpiLastSleepTscBase := 1, gAcpiLastSleepNanoBase := 2,
    gAcpiLastWakeTscBase := 3, gAcpiLastWakeNanoBase := 4,
    rtcDeadline := 42, rtcPop := 0, tsc_rebase_abs_time := 9, events := [] }

/-- A concrete cycle converter (identity on the delta) used by the witnesses. -/
def convDelta : Nat → pal_rtc_nanotime_t → Nat := fun d _ => d

/-- A concrete hardware timer driver that arms two units late. -/
def exampleDriver : Nat → Nat → Nat := fun t _ => t + 2

instance : DecidableEq (Except KError KState) := fun x y =>
  match x, y with
  | .error a, .error b =>
    match decEq a b with
    | isTrue h => isTrue (h ▸ rfl)
    | isFalse h => isFalse (fun hh => h (by injection hh))
  | .ok a, .ok b =>
    match decEq a b with
    | isTrue h => isTrue (h ▸ rfl)
    | isFalse h => isFalse (fun hh => h (by injection hh))
  | .error _, .ok _ => isFalse (fun hh => by injection hh)
  | .ok _, .error _ => isFalse (fun hh => by injection hh)

/-- C10: `absolutetime_to_nanoseconds` and `nanoseconds_to_absolutetime` are
both the identity on u64, so composing them in either order returns the input
unchanged, and `clock_timebase_info` reports numerator = denominator = 1: one
absolute-time unit is exactly one nanosecond. -/
theorem abs_time_nano_identity (x : Nat) :
    absolutetime_to_nanoseconds (nanoseconds_to_absolutetime x) = x ∧
    nanoseconds_to_absolutetime (absolutetime_to_nanoseconds x) = x ∧
    absolutetime_to_nanoseconds x = x ∧
    nanoseconds_to_absolutetime x = x ∧
    clock_timebase_info = (1, 1) :=
  ⟨rfl, rfl, rfl, rfl, rfl⟩

/-- C9: for every origin time, `rtc_nanotime_init` sets the tuple's cycle base
to the current cycle-counter value and its time base to the supplied origin
while leaving scale and shift equal to their values before the call, and is
followed by a publish of exactly that tuple to the shared-read surface. -/
theorem rtc_nanotime_init_sets_bases (tsc base : Nat) (s : KState) :
    (rtc_nanotime_init tsc base s).rtc_nanotime =
      ⟨tsc, base, s.rtc_nanotime.scale, s.rtc_nanotime.shift⟩ ∧
    (rtc_nanotime_init tsc base s).events =
      s.events ++
        [KEvent.set_commpage tsc base s.rtc_nanotime.scale s.rtc_nanotime.shift] :=
  ⟨rfl, rfl⟩

/-- C5 (amended): `rtc_sleep_wakeup` re-applies the hardware timer's fixed
startup configuration first, then records the pre-reset bases into the sleep
snapshot, reinitializes the tuple with the new origin time, records the
post-reset bases into the wake snapshot, and republishes; the per-processor
deadline state is left untouched and no deadline re-evaluation is forced. -/
theorem rtc_sleep_wakeup_sequence (tsc base : Nat) (s : KState) :
    rtc_sleep_wakeup tsc base s =
      { rtc_nanotime := ⟨tsc, base, s.rtc_nanotime.scale, s.rtc_nanotime.shift⟩,
        gAcpiLastSleepTscBase := s.rtc_nanotime.tsc_base,
        gAcpiLastSleepNanoBase := s.rtc_nanotime.ns_base,
        gAcpiLastWakeTscBase := tsc,
        gAcpiLastWakeNanoBase := base,
        rtcDeadline := s.rtcDeadline,
        rtcPop := s.rtcPop,
        tsc_rebase_abs_time := s.tsc_rebase_abs_time,
        events := s.events ++ [KEvent.rtc_config,
          KEvent.set_commpage tsc base s.rtc_nanotime.scale s.rtc_nanotime.shift] } := by
  cases s
  simp [rtc_sleep_wakeup, rtc_nanotime_init, _rtc_nanotime_init,
    _pal_rtc_nanotime_store, rtc_nanotime_set_commpage]

/-- C5 counterexample: at a concrete state with a pending per-processor
deadline of 42, `rtc_sleep_wakeup` leaves the recorded deadline at 42 (not the
"none" sentinel) and emits no deadline-resynchronization call: the claimed
"force a full re-evaluation of any pending per-processor deadline" step does
not happen; the trace also shows the hardware configuration is re-applied
before the republish, not after. -/
theorem rtc_sleep_wakeup_no_reeval_cex :
    (rtc_sleep_wakeup 777 888 exampleState).rtcDeadline = 42 ∧
    (42 : Nat) ≠ EndOfAllTime ∧
    KEvent.timer_resync_deadlines ∉ (rtc_sleep_wakeup 777 888 exampleState).events ∧
    (rtc_sleep_wakeup 777 888 exampleState).events =
      exampleState.events ++ [KEvent.rtc_config, KEvent.set_commpage 777 888 7 2] := by
  decide

/-- C4: `rtc_clock_adjust` succeeds (adjusting the tuple and republishing) for
every `tsc_base_delta` strictly below 100 cycle units, and fails with the
`tsc_base_delta < 100` assertion (AdjustmentTooLarge) without mutating the
tuple for every delta of 100 or more. -/
theorem rtc_clock_adjust_bound (delta : Nat) (s : KState) :
    (delta < 100 →
      rtc_clock_adjust false delta s =
        .ok (rtc_nanotime_set_commpage
          { s with rtc_nanotime := _rtc_nanotime_adjust delta s.rtc_nanotime })) ∧
    (100 ≤ delta →
      rtc_clock_adjust false delta s = .error KError.adjustment_too_large) := by
  constructor
  · intro h
    simp [rtc_clock_adjust, h]
  · intro h
    have h2 : ¬ delta < 100 := by omega
    simp [rtc_clock_adjust, h2]

/-- C4 witness: the maximum allowed magnitude 99 succeeds and 100, one unit
beyond it, fails with AdjustmentTooLarge. -/
theorem rtc_clock_adjust_bound_witness :
    ((99 : Nat) < 100 ∧ rtc_clock_adjust false 99 exampleState =
      .ok (rtc_nanotime_set_commpage
        { exampleState with
            rtc_nanotime := _rtc_nanotime_adjust 99 exampleState.rtc_nanotime })) ∧
    ((100 : Nat) ≤ 100 ∧
      rtc_clock_adjust false 100 exampleState = .error KError.adjustment_too_large) :=
  ⟨⟨by decide, (rtc_clock_adjust_bound 99 exampleState).1 (by decide)⟩,
   ⟨by decide, (rtc_clock_adjust_bound 100 exampleState).2 (by decide)⟩⟩

/-- C1: idle-exit recovery adopts the candidate `(base, tsc_base)` pair —
keeping the current scale/shift — and republishes, exactly when the "now"
derived from the candidate is strictly greater than the "now" derived from the
existing tuple at the same instant; when the candidate's derived now is less
than or equal, the whole state (tuple, audit trail, trace) is returned
completely unchanged: nothing is republished or signalled. -/
theorem rtc_clock_napped_gate (conv : Nat → pal_rtc_nanotime_t → Nat)
    (tsc base tsc_base : Nat) (s : KState) :
    (rtc_napped_oldnsecs conv tsc s.rtc_nanotime <
        rtc_napped_newnsecs conv tsc base tsc_base s.rtc_nanotime →
      rtc_clock_napped conv false tsc base tsc_base s =
        .ok (rtc_nanotime_set_commpage
          { s with rtc_nanotime := (_pal_rtc_nanotime_store tsc_base base
              s.rtc_nanotime.scale s.rtc_nanotime.shift) })) ∧
    (rtc_napped_newnsecs conv tsc base tsc_base s.rtc_nanotime ≤
        rtc_napped_oldnsecs conv tsc s.rtc_nanotime →
      rtc_clock_napped conv false tsc base tsc_base s = .ok s) := by
  constructor
  · intro h
    simp [rtc_clock_napped, h]
  · intro h
    simp [rtc_clock_napped, Nat.not_lt.mpr h]

/-- C1 witness: with the identity-on-delta converter and the example tuple
(old now = 6000), the candidate (7000, 1500) derives now 7500 > 6000 and is
adopted and republished, while the candidate (5500, 1600) derives now
5900 ≤ 6000 and leaves the state untouched. -/
theorem rtc_clock_napped_gate_witness :
    (rtc_napped_oldnsecs convDelta 2000 exampleState.rtc_nanotime <
       rtc_napped_newnsecs convDelta 2000 7000 1500 exampleState.rtc_nanotime ∧
     rtc_clock_napped convDelta false 2000 7000 1500 exampleState =
       .ok (rtc_nanotime_set_commpage
         { exampleState with rtc_nanotime := (_pal_rtc_nanotime_store 1500 7000
             exampleState.rtc_nanotime.scale exampleState.rtc_nanotime.shift) })) ∧
    (rtc_napped_newnsecs convDelta 2000 5500 1600 exampleState.rtc_nanotime ≤
       rtc_napped_oldnsecs convDelta 2000 exampleState.rtc_nanotime ∧
     rtc_clock_napped convDelta false 2000 5500 1600 exampleState = .ok exampleState) :=
  ⟨⟨by decide, (rtc_clock_napped_gate convDelta 2000 7000 1500 exampleState).1 (by decide)⟩,
   ⟨by decide, (rtc_clock_napped_gate convDelta 2000 5500 1600 exampleState).2 (by decide)⟩⟩

/-- C7: a zero measured cycle frequency fails the `assert(tscFreq)` in
`rtclock_early_init` (a fatal boot-time configuration error, InvalidFrequency),
and the Calibrator itself never returns a `(scale, shift)` pair for a zero
input: its shift-search does not terminate, so no calibration tuple is
produced. -/
theorem rtclock_early_init_zero_freq (conv : Nat → pal_rtc_nanotime_t → Nat)
    (tsc1 tsc_at_boot tsc2 : Nat) (s : KState) :
    rtclock_early_init conv tsc1 tsc_at_boot tsc2 0 s =
      .error KError.invalid_frequency ∧
    rtc_timescale_pair 0 = none ∧
    rtc_set_timescale conv tsc1 tsc_at_boot tsc2 0 s = none := by
  refine ⟨rfl, by decide, ?_⟩
  have h : rtc_timescale_pair 0 = none := by decide
  simp [rtc_set_timescale, h]

/-- C6 counterexample: with a driver that arms two units late
(requested 10, achieved 12, satisfying "never earlier"), at current time 4,
`setPop` returns 8 — the achieved arm time minus "now" — which is neither
`12 - 10` nor `10 - 12` (mod 2^64), so the return value is not the signed
difference between the requested and the achieved arm time. -/
theorem setPop_requested_vs_achieved_cex :
    exampleDriver 10 4 = 12 ∧ (10 : Nat) ≤ 12 ∧
    (10 : Nat) ≠ 0 ∧ (10 : Nat) ≠ EndOfAllTime ∧
    (setPop exampleDriver 4 10 exampleState).1 = 8 ∧
    (8 : Nat) ≠ u64_sub 12 10 ∧ (8 : Nat) ≠ u64_sub 10 12 := by
  decide

/-- C6 (amended): for every non-sentinel, non-zero target time, `setPop` arms
the driver for the target relative to "now", records the requested and the
actually-achieved deadlines in the per-processor state, and returns the
difference between the achieved arm time and the "now" sampled at request (the
delta until the pop), not the requested-vs-achieved difference; under the
driver contract that the achieved arm time is never earlier than the requested
time, the recorded achieved deadline is at least the requested one. -/
theorem setPop_returns_delta (hw : Nat → Nat → Nat) (read_now time : Nat)
    (s : KState) (h0 : time ≠ 0) (hE : time ≠ EndOfAllTime) :
    setPop hw read_now time s =
      (u64_sub (hw time read_now % 2 ^ 64) read_now,
       { s with rtcDeadline := time, rtcPop := hw time read_now % 2 ^ 64,
                events := s.events ++ [KEvent.rtc_set time read_now] }) ∧
    (time ≤ hw time read_now → hw time read_now < 2 ^ 64 →
      time ≤ (setPop hw read_now time s).2.rtcPop) := by
  have hcond : ¬ (time = 0 ∨ time = EndOfAllTime) := by
    intro hor
    cases hor with
    | inl h => exact h0 h
    | inr h => exact hE h
  constructor
  · simp [setPop, hcond]
  · intro h1 h2
    simp [setPop, hcond]
    omega

/-- C6 witness: requested time 10, "now" 4, driver achieving 12: the returned
delta is `12 - 4 = 8`, both deadlines are recorded, and the recorded achieved
deadline 12 is at least the requested 10. -/
theorem setPop_returns_delta_witness :
    (10 : Nat) ≠ 0 ∧ (10 : Nat) ≠ EndOfAllTime ∧
    setPop exampleDriver 4 10 exampleState =
      (u64_sub (exampleDriver 10 4 % 2 ^ 64) 4,
       { exampleState with
           rtcDeadline := 10, rtcPop := exampleDriver 10 4 % 2 ^ 64,
           events := exampleState.events ++ [KEvent.rtc_set 10 4] }) ∧
    10 ≤ (setPop exampleDriver 4 10 exampleState).2.rtcPop :=
  ⟨by decide, by decide,
   (setPop_returns_delta exampleDriver 4 10 exampleState (by decide) (by decide)).1,
   (setPop_returns_delta exampleDriver 4 10 exampleState (by decide)
     (by decide)).2 (by decide) (by decide)⟩

/-- C8 counterexample: the Calibrator path also writes the four sleep/wake
audit-trail snapshots — `rtc_set_timescale` (boot calibration, not the
sleep/wakeup path) takes the example state's snapshots from (1, 2, 3, 4) to
(1000, 5000, 20, 0) via its trailing `rtc_nanotime_init(0)` — so the snapshots
are not written only by the full-reset path. -/
theorem snapshots_calibrator_cex :
    (rtc_set_timescale convDelta 10 0 20 2000000000 exampleState).map snaps =
      some (1000, 5000, 20, 0) ∧
    snaps exampleState = (1, 2, 3, 4) ∧
    ((1000, 5000, 20, 0) : Nat × Nat × Nat × Nat) ≠ (1, 2, 3, 4) := by
  decide

/-- C8 (amended): the four sleep/wake audit-trail snapshots are written only by
`rtc_nanotime_init`, which is invoked by the full-reset (sleep/wakeup) path and
by the Calibrator (`rtc_set_timescale`) at boot; none of the other operations
— idle-exit recovery, bounded drift adjustment, deadline request, timer start,
decrementer configure, commpage re-init, interrupt demux — ever writes them. -/
theorem snapshots_frame :
    (∀ conv tsc base tsc_base s s',
      rtc_clock_napped conv false tsc base tsc_base s = .ok s' →
        snaps s' = snaps s) ∧
    (∀ delta s s',
      rtc_clock_adjust false delta s = .ok s' → snaps s' = snaps s) ∧
    (∀ hw read_now time s, snaps (setPop hw read_now time s).2 = snaps s) ∧
    (∀ s, snaps (rtc_timer_start s) = snaps s) ∧
    (∀ s, snaps (rtc_decrementer_configure s) = snaps s) ∧
    (∀ s, snaps (rtc_nanotime_init_commpage s) = snaps s) ∧
    (∀ pl tregs s s',
      rtclock_intr pl false tregs s = .ok s' → snaps s' = snaps s) := by
  refine ⟨?_, ?_, ?_, fun s => rfl, fun s => rfl, fun s => rfl, ?_⟩
  · intro conv tsc base tsc_base s s' h
    simp [rtc_clock_napped] at h
    split at h <;> (injection h with h; subst h; rfl)
  · intro delta s s' h
    simp [rtc_clock_adjust] at h
    split at h
    · injection h with h; subst h; rfl
    · exact Except.noConfusion h
  · intro hw read_now time s
    simp only [setPop]
    split <;> rfl
  · intro pl tregs s s' h
    simp [rtclock_intr] at h
    split at h
    · exact Except.noConfusion h
    · split at h <;> (injection h with h; subst h; rfl)

/-- C8 witness: an adopting idle-exit recovery at the example state leaves the
audit-trail snapshots unchanged. -/
theorem snapshots_frame_witness :
    snaps (rtc_nanotime_set_commpage { exampleState with
      rtc_nanotime := (_pal_rtc_nanotime_store 1500 7000 7 2) }) =
      snaps exampleState :=
  snapshots_frame.1 convDelta 2000 7000 1500 exampleState _ (by decide)

/-- When the entry value is already above the threshold the shift-search
returns immediately, for any fuel. -/
theorem rtc_shift_loop_exit (fuel shift c : Nat)
    (h : ¬ c ≤ SLOW_TSC_THRESHOLD) :
    rtc_shift_loop fuel shift c = some (shift, c) := by
  cases fuel <;> simp [rtc_shift_loop, h]

/-- Behaviour of the shift-search: from a positive entry value with enough
fuel, it terminates after some `k` doublings with the inflated rate
`c * 2 ^ k`, which is strictly above the threshold, and `k` is positive
whenever the entry value was at or below the threshold. -/
theorem rtc_shift_loop_spec (fuel : Nat) :
    ∀ shift c, 0 < c → SLOW_TSC_THRESHOLD < c * 2 ^ fuel →
      ∃ k, k ≤ fuel ∧ rtc_shift_loop fuel shift c = some (shift + k, c * 2 ^ k) ∧
        SLOW_TSC_THRESHOLD < c * 2 ^ k ∧ (c ≤ SLOW_TSC_THRESHOLD → 0 < k) := by
  induction fuel with
  | zero =>
    intro shift c hc hbound
    rw [pow_zero, Nat.mul_one] at hbound
    have hno : ¬ c ≤ SLOW_TSC_THRESHOLD := Nat.not_le.mpr hbound
    exact ⟨0, Nat.le_refl 0, by simp [rtc_shift_loop, hno],
      by simpa using hbound, fun hle => absurd hle hno⟩
  | succ f ih =>
    intro shift c hc hbound
    by_cases hle : c ≤ SLOW_TSC_THRESHOLD
    · have hT : SLOW_TSC_THRESHOLD = 1000067800 := rfl
      have h64 : (2 : Nat) ^ 64 = 18446744073709551616 := by norm_num
      have hsmall : c * 2 < 2 ^ 64 := by omega
      have hmod : c * 2 % 2 ^ 64 = c * 2 := Nat.mod_eq_of_lt hsmall
      have hbound2 : SLOW_TSC_THRESHOLD < c * 2 * 2 ^ f := by
        calc SLOW_TSC_THRESHOLD < c * 2 ^ (f + 1) := hbound
        _ = c * 2 * 2 ^ f := by ring
      obtain ⟨k, hk, heq, hgt, _⟩ := ih (shift + 1) (c * 2) (by omega) hbound2
      have hpow : c * 2 * 2 ^ k = c * 2 ^ (k + 1) := by ring
      refine ⟨k + 1, by omega, ?_, by rw [← hpow]; exact hgt, fun _ => Nat.succ_pos k⟩
      simp only [rtc_shift_loop, if_pos hle, hmod, heq]
      rw [hpow, Nat.add_assoc, Nat.add_comm 1 k]
    · have hTc : SLOW_TSC_THRESHOLD < c := Nat.not_le.mp hle
      exact ⟨0, Nat.zero_le _, by simp [rtc_shift_loop, hle],
        by simpa using hTc, fun h2 => absurd h2 hle⟩

/-- The shift-search is always given fuel 64 by the Calibrator; a positive
frequency always terminates within it. -/
theorem rtc_shift_loop_64 (freq : Nat) (h : 0 < freq) :
    ∃ k, rtc_shift_loop 64 0 freq = some (k, freq * 2 ^ k) ∧
      SLOW_TSC_THRESHOLD < freq * 2 ^ k ∧ (freq ≤ SLOW_TSC_THRESHOLD → 0 < k) := by
  have hT : SLOW_TSC_THRESHOLD = 1000067800 := rfl
  have h64 : (2 : Nat) ^ 64 = 18446744073709551616 := by norm_num
  have hbound : SLOW_TSC_THRESHOLD < freq * 2 ^ 64 := by
    have h1 : 1 * 2 ^ 64 ≤ freq * 2 ^ 64 := Nat.mul_le_mul_right _ h
    omega
  obtain ⟨k, _, heq, hgt, hkpos⟩ := rtc_shift_loop_spec 64 0 freq h hbound
  exact ⟨k, by simpa using heq, hgt, hkpos⟩

/-- Once the inflated rate is above the threshold (which exceeds `10^9`), the
scale quotient fits in 32 bits. -/
theorem scale_quot_lt (c : Nat) (hc : SLOW_TSC_THRESHOLD < c) :
    NSEC_PER_SEC * 2 ^ 32 / c < 2 ^ 32 := by
  have hT : SLOW_TSC_THRESHOLD = 1000067800 := rfl
  have hns : NSEC_PER_SEC = 1000000000 := rfl
  have h32 : (2 : Nat) ^ 32 = 4294967296 := by norm_num
  have hpos : 0 < c := by omega
  rw [Nat.div_lt_iff_lt_mul hpos, hns, h32]
  omega

/-- C3: for every non-zero input frequency the shift-search terminates, and
the resulting inflated rate makes the quotient
`(NSEC_PER_SEC << 32) / effective_rate` strictly less than `2^32`, so the
`uint32_t` cast in `rtc_set_timescale` loses no information: the scale the
Calibrator stores is exactly that quotient. -/
theorem rtc_set_timescale_scale_fits (freq : Nat) (h : 0 < freq) :
    ∃ shift cycles, rtc_shift_loop 64 0 freq = some (shift, cycles) ∧
      NSEC_PER_SEC * 2 ^ 32 / cycles < 2 ^ 32 ∧
      rtc_timescale_pair freq = some (NSEC_PER_SEC * 2 ^ 32 / cycles, shift) := by
  obtain ⟨k, heq, hgt, _⟩ := rtc_shift_loop_64 freq h
  have hdiv := scale_quot_lt (freq * 2 ^ k) hgt
  refine ⟨k, freq * 2 ^ k, heq, hdiv, ?_⟩
  simp only [rtc_timescale_pair, heq]
  rw [Nat.mod_eq_of_lt hdiv]

/-- C3 witness: at frequency 2,000,000,000 the loop exits immediately, the
quotient is 2,147,483,648 < 2^32, and the pair holds it untruncated. -/
theorem rtc_set_timescale_scale_fits_witness :
    (0 : Nat) < 2000000000 ∧
    (∃ shift cycles, rtc_shift_loop 64 0 2000000000 = some (shift, cycles) ∧
      NSEC_PER_SEC * 2 ^ 32 / cycles < 2 ^ 32 ∧
      rtc_timescale_pair 2000000000 = some (NSEC_PER_SEC * 2 ^ 32 / cycles, shift)) :=
  ⟨by decide, rtc_set_timescale_scale_fits 2000000000 (by decide)⟩

/-- C2 counterexample: at an input frequency exactly equal to the low-frequency
threshold the loop condition `cycles <= SLOW_TSC_THRESHOLD` still holds, so the
Calibrator produces shift 1, not the claimed `shift == 0` for frequencies "at
or above the threshold". -/
theorem rtc_set_timescale_threshold_cex :
    SLOW_TSC_THRESHOLD ≤ SLOW_TSC_THRESHOLD ∧
    (rtc_timescale_pair SLOW_TSC_THRESHOLD).map Prod.snd = some 1 ∧
    (some 1 : Option Nat) ≠ some 0 := by
  decide

/-- C2 (amended): for every input frequency from 1 up to the low-frequency
threshold inclusive, the Calibrator produces `shift > 0` and a scale value
representable in 32 bits; for every frequency strictly above the threshold it
produces `shift == 0`. -/
theorem rtc_set_timescale_shift_ranges (freq : Nat) (h : 0 < freq) :
    (freq ≤ SLOW_TSC_THRESHOLD →
      ∃ scale shift, rtc_timescale_pair freq = some (scale, shift) ∧
        0 < shift ∧ scale < 2 ^ 32) ∧
    (SLOW_TSC_THRESHOLD < freq →
      ∃ scale, rtc_timescale_pair freq = some (scale, 0)) := by
  constructor
  · intro hle
    obtain ⟨k, heq, hgt, hkpos⟩ := rtc_shift_loop_64 freq h
    have hdiv := scale_quot_lt (freq * 2 ^ k) hgt
    refine ⟨NSEC_PER_SEC * 2 ^ 32 / (freq * 2 ^ k), k, ?_, hkpos hle, hdiv⟩
    simp only [rtc_timescale_pair, heq]
    rw [Nat.mod_eq_of_lt hdiv]
  · intro hgt
    have heq := rtc_shift_loop_exit 64 0 freq (Nat.not_le.mpr hgt)
    exact ⟨NSEC_PER_SEC * 2 ^ 32 / freq % 2 ^ 32, by simp [rtc_timescale_pair, heq]⟩

/-- C2 witness: frequency 500 (far below the threshold) yields a positive shift
and a 32-bit scale; frequency 2,000,000,000 (above the threshold) yields
shift 0. -/
theorem rtc_set_timescale_shift_ranges_witness :
    ((0 : Nat) < 500 ∧ (500 : Nat) ≤ SLOW_TSC_THRESHOLD ∧
      (∃ scale shift, rtc_timescale_pair 500 = some (scale, shift) ∧
        0 < shift ∧ scale < 2 ^ 32)) ∧
    ((0 : Nat) < 2000000000 ∧ SLOW_TSC_THRESHOLD < 2000000000 ∧
      (∃ scale, rtc_timescale_pair 2000000000 = some (scale, 0))) :=
  ⟨⟨by decide, by decide,
      (rtc_set_timescale_shift_ranges 500 (by decide)).1 (by decide)⟩,
   ⟨by decide, by decide,
      (rtc_set_timescale_shift_ranges 2000000000 (by decide)).2 (by decide)⟩⟩

end Rtclock
